import Mathlib

/-!
Verification of the HTTP request-lifecycle core (`src/core/api.ts`) of the
`papack/api` repository: a shallow embedding of the dispatcher, body
acquisition, the error-to-response mapping (`handleError`,
`src/core/http-error`), and the SSE session machinery, together with theorems
settling the specification's claims about them.
-/

/-! ## UTF-8 decoding

Node's `buffer.toString("utf8")` decodes a byte buffer with WHATWG-style
replacement-character semantics (invalid or truncated sequences yield U+FFFD).
We model bytes as `Nat` and implement the decoder as a byte-at-a-time state
machine so that it is structurally recursive and computes by `rfl`/`decide`.
-/

/-- The replacement character U+FFFD emitted for invalid UTF-8 input. -/
def replChar : Char := Char.ofNat 0xFFFD

/-- Decoder state: either at a sequence boundary, or inside a multi-byte
sequence holding the accumulated code-point bits, the number of continuation
bytes still required, and the allowed range for the next byte. -/
inductive Utf8State
  | start
  | pending (acc : Nat) (need : Nat) (lo : Nat) (hi : Nat)
deriving Repr, DecidableEq

/-- Process one byte from the boundary state: ASCII is emitted directly, a
valid lead byte opens a pending sequence, anything else is a replacement. -/
def utf8Lead (b : Nat) : Utf8State × String :=
  if b < 0x80 then (Utf8State.start, String.singleton (Char.ofNat b))
  else if b < 0xC2 then (Utf8State.start, String.singleton replChar)
  else if b < 0xE0 then (Utf8State.pending (b - 0xC0) 1 0x80 0xBF, "")
  else if b < 0xF0 then
    if b = 0xE0 then (Utf8State.pending 0 2 0xA0 0xBF, "")
    else if b = 0xED then (Utf8State.pending (0xED - 0xE0) 2 0x80 0x9F, "")
    else (Utf8State.pending (b - 0xE0) 2 0x80 0xBF, "")
  else if b < 0xF5 then
    if b = 0xF0 then (Utf8State.pending 0 3 0x90 0xBF, "")
    else if b = 0xF4 then (Utf8State.pending (0xF4 - 0xF0) 3 0x80 0x8F, "")
    else (Utf8State.pending (b - 0xF0) 3 0x80 0xBF, "")
  else (Utf8State.start, String.singleton replChar)

/-- Byte-at-a-time UTF-8 decoding with replacement; a byte failing a
continuation check is re-examined as a lead byte (maximal-subpart policy). -/
def utf8DecodeAux : Utf8State → List Nat → String
  | Utf8State.start, [] => ""
  | Utf8State.pending _ _ _ _, [] => String.singleton replChar
  | Utf8State.start, b :: rest =>
    (utf8Lead b).2 ++ utf8DecodeAux (utf8Lead b).1 rest
  | Utf8State.pending acc need lo hi, b :: rest =>
    if lo ≤ b ∧ b ≤ hi then
      if need = 1 then
        String.singleton (Char.ofNat (acc * 64 + (b - 0x80))) ++
          utf8DecodeAux Utf8State.start rest
      else utf8DecodeAux (Utf8State.pending (acc * 64 + (b - 0x80)) (need - 1) 0x80 0xBF) rest
    else
      String.singleton replChar ++ (utf8Lead b).2 ++ utf8DecodeAux (utf8Lead b).1 rest

/-- `buffer.toString("utf8")` on one chunk of bytes. -/
def utf8Decode (bytes : List Nat) : String :=
  utf8DecodeAux Utf8State.start bytes

/-! ## JSON

`JSON.stringify` as used by the RPC result path and SSE `emit`. -/

/-- JSON values (numbers restricted to integers, which is all the core's
observable behavior in the claims exercises). -/
inductive Json
  | null
  | bool (b : Bool)
  | num (n : Int)
  | str (s : String)
  | arr (xs : List Json)
  | obj (fs : List (String × Json))
deriving Repr

/-- One hexadecimal digit, lower case. -/
def hexDigit (n : Nat) : String :=
  if n < 10 then String.singleton (Char.ofNat (48 + n))
  else String.singleton (Char.ofNat (87 + n))

/-- Escaping of a single character inside a JSON string literal, following
`JSON.stringify`. -/
def jsonEscapeChar (c : Char) : String :=
  if c = Char.ofNat 34 then "\\\""
  else if c = Char.ofNat 92 then "\\\\"
  else if c = Char.ofNat 8 then "\\b"
  else if c = Char.ofNat 12 then "\\f"
  else if c = Char.ofNat 10 then "\\n"
  else if c = Char.ofNat 13 then "\\r"
  else if c = Char.ofNat 9 then "\\t"
  else if c.toNat < 32 then "\\u00" ++ hexDigit (c.toNat / 16) ++ hexDigit (c.toNat % 16)
  else String.singleton c

/-- A JSON string literal with quotes and escapes. -/
def jsonQuote (s : String) : String :=
  "\"" ++ String.join (s.toList.map jsonEscapeChar) ++ "\""

mutual

/-- `JSON.stringify` of a JSON value. -/
def jsonStringify : Json → String
  | Json.null => "null"
  | Json.bool b => if b then "true" else "false"
  | Json.num n => toString n
  | Json.str s => jsonQuote s
  | Json.arr xs => "[" ++ jsonStringifyList xs ++ "]"
  | Json.obj fs => "\x7b" ++ jsonStringifyFields fs ++ "\x7d"

/-- Comma-separated serialization of array elements. -/
def jsonStringifyList : List Json → String
  | [] => ""
  | [x] => jsonStringify x
  | x :: y :: xs => jsonStringify x ++ "," ++ jsonStringifyList (y :: xs)

/-- Comma-separated serialization of object fields. -/
def jsonStringifyFields : List (String × Json) → String
  | [] => ""
  | [(k, v)] => jsonQuote k ++ ":" ++ jsonStringify v
  | (k, v) :: f :: fs => jsonQuote k ++ ":" ++ jsonStringify v ++ "," ++ jsonStringifyFields (f :: fs)

end

/-! ## Error taxonomy and `handleError`

`src/core/http-error` defines an abstract `HttpError` with fixed
`(statusCode, code)` pairs and wire body the quoted code string; the catch
block of the dispatcher recognises `HttpError`, then `ValidationError`
(carrying its own stable `code`), and maps everything else to 500 /
`INTERNAL_ERROR`. A thrown value is modelled with the data each branch of
`handleError` inspects; the `other` constructor carries the message that the
mapping must never serialize. -/

/-- A value thrown during a dispatch. -/
inductive Thrown
  | httpError (statusCode : Nat) (code : String)
  | validationError (code : String)
  | other (message : String)
deriving Repr, DecidableEq

/-- The wire body for a core-generated response: the code string, quoted. -/
def quoteCode (code : String) : String := "\"" ++ code ++ "\""

/-- `Api.handleError`: maps a thrown value to `(statusCode, body)`. An
`HttpError` keeps its own status and its body (the quoted code), a
`ValidationError` maps to 400 with its own quoted code, and anything else
maps to 500 / `INTERNAL_ERROR`. -/
def handleError : Thrown → Nat × String
  | Thrown.httpError statusCode code => (statusCode, quoteCode code)
  | Thrown.validationError code => (400, quoteCode code)
  | Thrown.other _ => (500, quoteCode "INTERNAL_ERROR")

/-- `NotFoundError` from `src/core/http-error`. -/
def notFoundError : Thrown := Thrown.httpError 404 "NOT_FOUND"

/-- `MethodNotAllowedError` from `src/core/http-error`. -/
def methodNotAllowedError : Thrown := Thrown.httpError 405 "METHOD_NOT_ALLOWED"

/-- `BadRequestError` from `src/core/http-error`. -/
def badRequestError : Thrown := Thrown.httpError 400 "BAD_REQUEST"

/-- `UnauthorizedError` from `src/core/http-error`. -/
def unauthorizedError : Thrown := Thrown.httpError 401 "UNAUTHORIZED"

/-- `ForbiddenError` from `src/core/http-error`. -/
def forbiddenError : Thrown := Thrown.httpError 403 "FORBIDDEN"

/-- `InternalServerError` from `src/core/http-error`. -/
def internalServerError : Thrown := Thrown.httpError 500 "INTERNAL_ERROR"

/-- `NotImplementedError` from `src/core/http-error`. -/
def notImplementedError : Thrown := Thrown.httpError 501 "NOT_IMPLEMENTED"

/-! ## Body acquisition

The `for await (const chunk of req)` loop of the dispatcher: accumulate the
running byte count, fail with 413 once it exceeds `maxRequestSize`
(abandoning the remaining chunks), otherwise decode each chunk as UTF-8 and
concatenate. Note the per-chunk decode: this mirrors
`body += chunk.toString("utf8")` exactly. -/

/-- Result of the body-acquisition loop: whether the size limit was tripped,
the accumulated string, and how many chunks were consumed from the stream. -/
structure BodyResult where
  tooLarge : Bool
  body : String
  consumed : Nat
deriving Repr, DecidableEq

/-- The body-acquisition loop with its running size and accumulator. -/
def acquireBodyAux (maxSize : Nat) (size : Nat) (acc : String) : List (List Nat) → BodyResult
  | [] => { tooLarge := false, body := acc, consumed := 0 }
  | ch :: rest =>
    if maxSize < size + ch.length then
      { tooLarge := true, body := acc, consumed := 1 }
    else
      let r := acquireBodyAux maxSize (size + ch.length) (acc ++ utf8Decode ch) rest
      { r with consumed := r.consumed + 1 }

/-- Body acquisition over the request's chunk list, from a zero count. -/
def acquireBody (maxSize : Nat) (chunks : List (List Nat)) : BodyResult :=
  acquireBodyAux maxSize 0 "" chunks

/-- Total byte size of a chunk list. -/
def chunkBytes (chunks : List (List Nat)) : Nat :=
  (chunks.map List.length).sum

/-- The concatenation of the per-chunk UTF-8 decodes, i.e. the string the
body-acquisition loop builds when the size limit is not hit. -/
def decodeAll : List (List Nat) → String
  | [] => ""
  | ch :: rest => utf8Decode ch ++ decodeAll rest

/-! ## Routes, requests and the dispatcher

The dispatcher of `Api`'s constructor, as one pure function from the
configuration, the route table and a request to the observable outcome.
Handlers are parameters: an RPC handler maps the body string it is given to
either a thrown value or an optional JSON result (`none` is JavaScript's
`undefined`); a Blob handler yields a buffer or a stream; an Upload handler's
outcome is its completion or a thrown value (it consumes the raw stream
itself, which the claims do not inspect); the SSE handler's behavior is
modelled separately by the session machine below. -/

/-- What a Blob handler returns. -/
inductive BlobData
  | buffer (bytes : List Nat)
  | stream
deriving Repr, DecidableEq

/-- A registered route: the kind tag together with its handler. -/
inductive Route
  | rpc (handler : String → Except Thrown (Option Json))
  | sse
  | blob (handler : String → Except Thrown BlobData)
  | upload (handler : Except Thrown Unit)

/-- Server configuration: `maxRequestSize` defaults to 1 MiB, `cors` is the
optional CORS origin. -/
structure ApiConfig where
  maxRequestSize : Nat := 1048576
  cors : Option String := none

/-- An incoming request: method string, raw URL, and the body as the list of
byte chunks the transport delivers. -/
structure Request where
  method : String
  url : String
  chunks : List (List Nat)

/-- The observable outcome of one dispatch: the response line (`status`,
`contentType`, text `body`, or blob bytes / piped stream / started SSE
session), plus instrumentation recording whether the handler was invoked,
how many chunks the core's body acquisition consumed from the transport, and
the body string the handler observed (its `ctx.req.body`). -/
structure DispatchResult where
  status : Nat := 200
  contentType : Option String := none
  body : String := ""
  blobBytes : Option (List Nat) := none
  piped : Bool := false
  sseStarted : Bool := false
  handlerInvoked : Bool := false
  consumed : Nat := 0
  handlerArg : Option String := none
  corsApplied : Bool := false

/-- The response written by the catch block for a thrown value. -/
def errorResult (corsOn : Bool) (consumed : Nat) (arg : Option String) (e : Thrown) : DispatchResult :=
  { status := (handleError e).1, body := (handleError e).2, handlerInvoked := true,
    consumed := consumed, handlerArg := arg, corsApplied := corsOn }

/-- The 405 response of a per-kind method check. -/
def methodNotAllowedResult (corsOn : Bool) (consumed : Nat) : DispatchResult :=
  { status := 405, body := quoteCode "METHOD_NOT_ALLOWED", consumed := consumed,
    corsApplied := corsOn }

/-- The dispatcher: CORS headers, the `OPTIONS` short circuit, route lookup,
the Upload path (method check before any body read), then body acquisition
(with its 413 exit) followed by the per-kind method checks and handler
invocation for RPC, SSE and Blob — in exactly the order of the source. -/
def dispatch (cfg : ApiConfig) (routes : List (String × Route)) (req : Request) : DispatchResult :=
  let corsOn := cfg.cors.isSome
  if req.method = "OPTIONS" then
    { status := 204, corsApplied := corsOn }
  else
    match List.lookup req.url routes with
    | none =>
      { status := 404, body := quoteCode "NOT_FOUND", corsApplied := corsOn }
    | some (Route.upload h) =>
      if req.method ≠ "POST" then methodNotAllowedResult corsOn 0
      else
        match h with
        | Except.ok _ =>
          { status := 200, body := quoteCode "OK", handlerInvoked := true, corsApplied := corsOn }
        | Except.error e => errorResult corsOn 0 none e
    | some route =>
      let br := acquireBody cfg.maxRequestSize req.chunks
      if br.tooLarge then
        { status := 413, body := quoteCode "PAYLOAD_TOO_LARGE", consumed := br.consumed,
          corsApplied := corsOn }
      else
        match route with
        | Route.rpc f =>
          if req.method ≠ "POST" then methodNotAllowedResult corsOn br.consumed
          else
            match f br.body with
            | Except.ok none =>
              { status := 200, body := "", handlerInvoked := true, consumed := br.consumed,
                handlerArg := some br.body, corsApplied := corsOn }
            | Except.ok (some j) =>
              { status := 200, contentType := some "application/json",
                body := jsonStringify j, handlerInvoked := true, consumed := br.consumed,
                handlerArg := some br.body, corsApplied := corsOn }
            | Except.error e => errorResult corsOn br.consumed (some br.body) e
        | Route.sse =>
          if req.method ≠ "GET" then methodNotAllowedResult corsOn br.consumed
          else
            { status := 200, contentType := some "text/event-stream", sseStarted := true,
              handlerInvoked := true, consumed := br.consumed, corsApplied := corsOn }
        | Route.blob g =>
          if req.method ≠ "GET" then methodNotAllowedResult corsOn br.consumed
          else
            match g br.body with
            | Except.ok (BlobData.buffer bs) =>
              { status := 200, blobBytes := some bs, handlerInvoked := true,
                consumed := br.consumed, handlerArg := some br.body, corsApplied := corsOn }
            | Except.ok BlobData.stream =>
              { status := 200, piped := true, handlerInvoked := true,
                consumed := br.consumed, handlerArg := some br.body, corsApplied := corsOn }
            | Except.error e => errorResult corsOn br.consumed (some br.body) e
        | Route.upload _ =>
          -- unreachable: upload requests return in the branch above; here the
          -- source's if-chain would fall through without writing a response
          { corsApplied := corsOn }

/-! ## SSE session

The per-request SSE state: the `closed` flag, the cleanup registry, the
frames written to the response, and a log of cleanup invocations (by callback
id, in invocation order). A cleanup callback is modelled by its id and
whether invoking it throws; the `try { await fn() } catch {}` of `runCleanup`
discards the outcome either way. -/

/-- A cleanup callback: an identity and whether invoking it throws. -/
structure Cb where
  id : Nat
  fails : Bool
deriving Repr, DecidableEq

/-- State of one SSE session. -/
structure SseSession where
  closed : Bool
  cleanups : List Cb
  writes : List String
  runLog : List Nat
deriving Repr, DecidableEq

/-- A fresh session: not closed, no cleanups, nothing written or run. -/
def initSession : SseSession :=
  { closed := false, cleanups := [], writes := [], runLog := [] }

/-- Invoking one callback: the invocation is logged, and the call either
succeeds or throws. -/
def invokeCb (cb : Cb) (log : List Nat) : List Nat × Except Unit Unit :=
  (log ++ [cb.id], if cb.fails then Except.error () else Except.ok ())

/-- The `for (const fn of cleanups)` loop of `runCleanup`: each callback is
invoked; a thrown error is swallowed by the `catch \x7b\x7d` and the loop
continues with the next callback. -/
def drainCleanups : List Cb → List Nat → List Nat
  | [], log => log
  | cb :: rest, log => drainCleanups rest (invokeCb cb log).1

/-- `runCleanup`: a no-op once `closed`; otherwise set `closed` first, then
drain every registered callback in registration order. -/
def runCleanup (s : SseSession) : SseSession :=
  if s.closed then s
  else { s with closed := true, runLog := drainCleanups s.cleanups s.runLog }

/-- `onCleanup(fn)`: append a callback to the registry. -/
def onCleanup (s : SseSession) (cb : Cb) : SseSession :=
  { s with cleanups := s.cleanups ++ [cb] }

/-- `emit(event, data)`: if the session is closed, do nothing; otherwise
write the `event:` line and the `data:` line of the frame. -/
def emit (s : SseSession) (event : String) (data : Json) : SseSession :=
  if s.closed then s
  else { s with writes := s.writes ++
    ["event: " ++ event ++ "\n", "data: " ++ jsonStringify data ++ "\n\n"] }

/-- The three occurrences that can end (or not end) a session: the request
side reporting closed, the response side reporting closed, and the handler's
promise resolving. -/
inductive SseTrigger
  | reqClose
  | resClose
  | handlerReturn
deriving Repr, DecidableEq

/-- The dispatcher's wiring of those occurrences: `req.on("close", runCleanup)`
and `res.on("close", runCleanup)` are registered, and after
`await route.handler(sseCtx)` the dispatcher simply returns, running nothing. -/
def sseStep : SseTrigger → SseSession → SseSession
  | SseTrigger.reqClose, s => runCleanup s
  | SseTrigger.resClose, s => runCleanup s
  | SseTrigger.handlerReturn, s => s

/-! ## Concrete handlers used in witness scenarios -/

/-- An RPC handler echoing the body it observes as a JSON string. -/
def echoHandler : String → Except Thrown (Option Json) :=
  fun b => Except.ok (some (Json.str b))

/-- An RPC handler returning the "no value" sentinel (`undefined`). -/
def noneHandler : String → Except Thrown (Option Json) :=
  fun _ => Except.ok none

/-- An RPC handler returning the object `\x7ba: 1\x7d`. -/
def objHandler : String → Except Thrown (Option Json) :=
  fun _ => Except.ok (some (Json.obj [("a", Json.num 1)]))

/-- An RPC handler throwing `ForbiddenError`. -/
def throwForbidden : String → Except Thrown (Option Json) :=
  fun _ => Except.error forbiddenError

/-- A Blob handler throwing a `ValidationError` carrying its own code. -/
def blobThrowValidation : String → Except Thrown BlobData :=
  fun _ => Except.error (Thrown.validationError "SCHEMA_MISMATCH")

/-! ## Helper lemmas -/

/-- Draining the cleanup registry invokes every callback once, in
registration order, whether or not individual callbacks throw. -/
theorem drainCleanups_eq (cbs : List Cb) (log : List Nat) :
    drainCleanups cbs log = log ++ cbs.map Cb.id := by
  induction cbs generalizing log with
  | nil => simp [drainCleanups]
  | cons cb rest ih => simp [drainCleanups, invokeCb, ih]

/-- Body acquisition below the size budget: no failure, the accumulated
string is the concatenation of per-chunk decodes, every chunk consumed. -/
theorem acquireBodyAux_ok (maxSize : Nat) (chunks : List (List Nat)) :
    ∀ size acc, chunkBytes chunks + size ≤ maxSize →
    acquireBodyAux maxSize size acc chunks =
      { tooLarge := false, body := acc ++ decodeAll chunks, consumed := chunks.length } := by
  induction chunks with
  | nil =>
    intro size acc h
    simp [acquireBodyAux, decodeAll, String.append_empty]
  | cons ch rest ih =>
    intro size acc h
    have hle : ¬ maxSize < size + ch.length := by
      simp [chunkBytes] at h; omega
    have hrest : chunkBytes rest + (size + ch.length) ≤ maxSize := by
      simp [chunkBytes] at h ⊢; omega
    simp only [acquireBodyAux, if_neg hle, ih (size + ch.length) (acc ++ utf8Decode ch) hrest]
    simp [decodeAll, String.append_assoc]

theorem acquireBodyAux_large (maxSize : Nat) (chunks : List (List Nat)) :
    ∀ size acc, size ≤ maxSize → maxSize < size + chunkBytes chunks →
    (acquireBodyAux maxSize size acc chunks).tooLarge = true ∧
    1 ≤ (acquireBodyAux maxSize size acc chunks).consumed ∧
    (acquireBodyAux maxSize size acc chunks).consumed ≤ chunks.length ∧
    maxSize < size + chunkBytes (chunks.take (acquireBodyAux maxSize size acc chunks).consumed) ∧
    size + chunkBytes (chunks.take ((acquireBodyAux maxSize size acc chunks).consumed - 1)) ≤ maxSize := by
  induction chunks with
  | nil =>
    intro size acc hsz h
    simp [chunkBytes] at h
    omega
  | cons ch rest ih =>
    intro size acc hsz h
    by_cases hbig : maxSize < size + ch.length
    · simp [acquireBodyAux, if_pos hbig, chunkBytes]
      omega
    · have hrest : maxSize < (size + ch.length) + chunkBytes rest := by
        simp [chunkBytes] at h ⊢; omega
      obtain ⟨ht, h1, hlen, hgt, hle2⟩ :=
        ih (size + ch.length) (acc ++ utf8Decode ch) (by omega) hrest
      rcases hres : acquireBodyAux maxSize (size + ch.length) (acc ++ utf8Decode ch) rest
        with ⟨tl, bd, cn⟩
      rw [hres] at ht h1 hlen hgt hle2
      simp only at ht h1 hlen hgt hle2
      obtain ⟨k, rfl⟩ : ∃ k, cn = k + 1 := ⟨cn - 1, by omega⟩
      simp only [acquireBodyAux, if_neg hbig, hres]
      simp only [List.take_succ_cons, chunkBytes, List.map_cons, List.sum_cons,
        Nat.add_sub_cancel, List.length_cons] at hgt hle2 ⊢
      refine ⟨ht, by omega, by omega, by omega, by omega⟩

theorem acquireBody_ok (maxSize : Nat) (chunks : List (List Nat)) (h : chunkBytes chunks ≤ maxSize) :
    acquireBody maxSize chunks =
      { tooLarge := false, body := decodeAll chunks, consumed := chunks.length } := by
  rw [acquireBody, acquireBodyAux_ok maxSize chunks 0 "" (by omega)]
  simp [String.empty_append]

theorem acquireBody_large (maxSize : Nat) (chunks : List (List Nat)) (h : maxSize < chunkBytes chunks) :
    (acquireBody maxSize chunks).tooLarge = true ∧
    1 ≤ (acquireBody maxSize chunks).consumed ∧
    (acquireBody maxSize chunks).consumed ≤ chunks.length ∧
    maxSize < chunkBytes (chunks.take (acquireBody maxSize chunks).consumed) ∧
    chunkBytes (chunks.take ((acquireBody maxSize chunks).consumed - 1)) ≤ maxSize := by
  have h2 := acquireBodyAux_large maxSize chunks 0 "" (by omega) (by omega)
  simpa [acquireBody] using h2

theorem utf8DecodeAux_start_append (l1 l2 : List Nat) (h : ∀ b ∈ l1, b < 0x80) :
    utf8DecodeAux Utf8State.start (l1 ++ l2) =
      utf8DecodeAux Utf8State.start l1 ++ utf8DecodeAux Utf8State.start l2 := by
  induction l1 with
  | nil => simp [utf8DecodeAux, String.empty_append]
  | cons b rest ih =>
    have hb : b < 0x80 := h b (by simp)
    have ih2 := ih (fun x hx => h x (by simp [hx]))
    simp [utf8DecodeAux, utf8Lead, if_pos hb, ih2, String.append_assoc]

theorem decodeAll_ascii (chunks : List (List Nat)) (h : ∀ b ∈ chunks.flatten, b < 0x80) :
    decodeAll chunks = utf8Decode chunks.flatten := by
  induction chunks with
  | nil => simp [decodeAll, utf8Decode, utf8DecodeAux]
  | cons ch rest ih =>
    simp only [List.flatten_cons] at h
    have hch : ∀ b ∈ ch, b < 0x80 := fun b hb => h b (by simp [hb])
    have hrest : ∀ b ∈ rest.flatten, b < 0x80 := fun b hb => h b (by simp [hb])
    simp only [decodeAll, utf8Decode, List.flatten_cons, ih hrest,
      utf8DecodeAux_start_append ch rest.flatten hch]

/-! ## Claims -/

/-- C3 counterexample: an `OPTIONS` request to an unregistered path is
answered 204, not 404 — the claim's "for every request method" fails at the
method `OPTIONS`. -/
theorem options_unregistered_204_cex :
    List.lookup "/missing" ([] : List (String × Route)) = none ∧
    (dispatch {} [] { method := "OPTIONS", url := "/missing", chunks := [] }).status = 204 ∧
    ¬ (dispatch {} [] { method := "OPTIONS", url := "/missing", chunks := [] }).status = 404 := by
  refine ⟨rfl, by decide, by decide⟩

/-- C3 (amended): for every path with no registered route, a request with
any method other than `OPTIONS` is answered with status 404 and body
`"NOT_FOUND"`, without invoking any handler. -/
theorem unregistered_404_non_options (cfg : ApiConfig) (routes : List (String × Route))
    (req : Request) (hnone : List.lookup req.url routes = none)
    (hm : req.method ≠ "OPTIONS") :
    (dispatch cfg routes req).status = 404 ∧
    (dispatch cfg routes req).body = quoteCode "NOT_FOUND" ∧
    (dispatch cfg routes req).handlerInvoked = false := by
  simp [dispatch, hnone, hm]

/-- C3 witness: the 404 path at a concrete unregistered GET request. -/
theorem unregistered_404_witness :
    List.lookup "/missing" ([] : List (String × Route)) = none ∧
    (({ method := "GET", url := "/missing", chunks := [] } : Request).method ≠ "OPTIONS") ∧
    ((dispatch {} [] { method := "GET", url := "/missing", chunks := [] }).status = 404 ∧
     (dispatch {} [] { method := "GET", url := "/missing", chunks := [] }).body = quoteCode "NOT_FOUND" ∧
     (dispatch {} [] { method := "GET", url := "/missing", chunks := [] }).handlerInvoked = false) :=
  ⟨rfl, by decide,
    unregistered_404_non_options {} [] { method := "GET", url := "/missing", chunks := [] }
      rfl (by decide)⟩

/-- C10: every `OPTIONS` request is answered 204 with an empty body, with no
handler invoked and nothing read from the stream; the outcome ignores the
route table (no route lookup) and its status/body are the same whether or not
CORS is configured. -/
theorem options_short_circuit (cfg cfg2 : ApiConfig) (routes routes2 : List (String × Route))
    (req : Request) (h : req.method = "OPTIONS") :
    (dispatch cfg routes req).status = 204 ∧
    (dispatch cfg routes req).body = "" ∧
    (dispatch cfg routes req).handlerInvoked = false ∧
    (dispatch cfg routes req).consumed = 0 ∧
    dispatch cfg routes2 req = dispatch cfg routes req ∧
    (dispatch cfg2 routes2 req).status = 204 ∧
    (dispatch cfg2 routes2 req).body = "" ∧
    (dispatch cfg2 routes2 req).handlerInvoked = false := by
  simp [dispatch, h]

/-- C10 witness: the `OPTIONS` short circuit at a concrete request, against a
populated and an empty route table and a CORS-enabled configuration. -/
theorem options_short_circuit_witness :
    (({ method := "OPTIONS", url := "/any", chunks := [[1]] } : Request).method = "OPTIONS") ∧
    ((dispatch {} [("/any", Route.rpc echoHandler)]
        { method := "OPTIONS", url := "/any", chunks := [[1]] }).status = 204 ∧
     (dispatch {} [("/any", Route.rpc echoHandler)]
        { method := "OPTIONS", url := "/any", chunks := [[1]] }).body = "" ∧
     (dispatch {} [("/any", Route.rpc echoHandler)]
        { method := "OPTIONS", url := "/any", chunks := [[1]] }).handlerInvoked = false ∧
     (dispatch {} [("/any", Route.rpc echoHandler)]
        { method := "OPTIONS", url := "/any", chunks := [[1]] }).consumed = 0 ∧
     dispatch {} [] { method := "OPTIONS", url := "/any", chunks := [[1]] } =
       dispatch {} [("/any", Route.rpc echoHandler)]
         { method := "OPTIONS", url := "/any", chunks := [[1]] } ∧
     (dispatch { maxRequestSize := 1, cors := some "o" } []
        { method := "OPTIONS", url := "/any", chunks := [[1]] }).status = 204 ∧
     (dispatch { maxRequestSize := 1, cors := some "o" } []
        { method := "OPTIONS", url := "/any", chunks := [[1]] }).body = "" ∧
     (dispatch { maxRequestSize := 1, cors := some "o" } []
        { method := "OPTIONS", url := "/any", chunks := [[1]] }).handlerInvoked = false) :=
  ⟨rfl, options_short_circuit {} { maxRequestSize := 1, cors := some "o" }
    [("/any", Route.rpc echoHandler)] []
    { method := "OPTIONS", url := "/any", chunks := [[1]] } rfl⟩

/-- C1 counterexample: a GET request with a body to a registered RPC route is
answered 405 without invoking the handler, but the body chunk HAS been
consumed from the transport stream (`consumed ≠ 0`), contradicting the
claim's "without any of the request body being read". -/
theorem method_mismatch_consumed_cex :
    (dispatch {} [("/rpc", Route.rpc echoHandler)]
      { method := "GET", url := "/rpc", chunks := [[104, 105]] }).status = 405 ∧
    (dispatch {} [("/rpc", Route.rpc echoHandler)]
      { method := "GET", url := "/rpc", chunks := [[104, 105]] }).handlerInvoked = false ∧
    ¬ (dispatch {} [("/rpc", Route.rpc echoHandler)]
      { method := "GET", url := "/rpc", chunks := [[104, 105]] }).consumed = 0 := by
  refine ⟨?_, ?_, ?_⟩ <;> decide

/-- C1 (amended): for a registered RPC route and a non-POST method, or a
registered Blob route and a non-GET method (and not `OPTIONS`), with the body
within `maxRequestSize`, the dispatcher responds 405 `"METHOD_NOT_ALLOWED"`
without invoking the handler — but only after fully consuming the request
body from the transport stream (body acquisition precedes the method check). -/
theorem method_mismatch_405_after_body (cfg : ApiConfig) (routes : List (String × Route))
    (req : Request) (r : Route)
    (hroute : List.lookup req.url routes = some r)
    (hkind : (∃ f, r = Route.rpc f ∧ req.method ≠ "POST") ∨
             (∃ g, r = Route.blob g ∧ req.method ≠ "GET"))
    (hopt : req.method ≠ "OPTIONS")
    (hsize : chunkBytes req.chunks ≤ cfg.maxRequestSize) :
    (dispatch cfg routes req).status = 405 ∧
    (dispatch cfg routes req).body = quoteCode "METHOD_NOT_ALLOWED" ∧
    (dispatch cfg routes req).handlerInvoked = false ∧
    (dispatch cfg routes req).consumed = req.chunks.length := by
  rcases hkind with ⟨f, rfl, hm⟩ | ⟨g, rfl, hm⟩ <;>
    simp [dispatch, hroute, hopt, hm, acquireBody_ok _ _ hsize, methodNotAllowedResult]

/-- C1 witness: the amended 405 behavior at a concrete GET-to-RPC request
with a one-chunk body, which is consumed. -/
theorem method_mismatch_405_witness :
    List.lookup "/rpc" [("/rpc", Route.rpc echoHandler)] = some (Route.rpc echoHandler) ∧
    chunkBytes [[104, 105]] ≤ ({} : ApiConfig).maxRequestSize ∧
    ((dispatch {} [("/rpc", Route.rpc echoHandler)]
        { method := "GET", url := "/rpc", chunks := [[104, 105]] }).status = 405 ∧
     (dispatch {} [("/rpc", Route.rpc echoHandler)]
        { method := "GET", url := "/rpc", chunks := [[104, 105]] }).body = quoteCode "METHOD_NOT_ALLOWED" ∧
     (dispatch {} [("/rpc", Route.rpc echoHandler)]
        { method := "GET", url := "/rpc", chunks := [[104, 105]] }).handlerInvoked = false ∧
     (dispatch {} [("/rpc", Route.rpc echoHandler)]
        { method := "GET", url := "/rpc", chunks := [[104, 105]] }).consumed = 1) :=
  by
  refine ⟨rfl, by decide, ?_⟩
  exact method_mismatch_405_after_body {} [("/rpc", Route.rpc echoHandler)]
    { method := "GET", url := "/rpc", chunks := [[104, 105]] } (Route.rpc echoHandler)
    rfl (Or.inl ⟨echoHandler, rfl, by decide⟩) (by decide) (by decide)

/-- C5: for every request to a route that performs body acquisition (RPC,
SSE or Blob; any non-`OPTIONS` method), a body exceeding `maxRequestSize`
yields status 413 with body `"PAYLOAD_TOO_LARGE"`, the handler is never
invoked, and reading stops at the first chunk that pushes the running count
over the limit (every prior prefix is within the limit). -/
theorem payload_too_large_413 (cfg : ApiConfig) (routes : List (String × Route))
    (req : Request) (r : Route)
    (hroute : List.lookup req.url routes = some r)
    (hkind : (∃ f, r = Route.rpc f) ∨ r = Route.sse ∨ (∃ g, r = Route.blob g))
    (hopt : req.method ≠ "OPTIONS")
    (hsize : cfg.maxRequestSize < chunkBytes req.chunks) :
    (dispatch cfg routes req).status = 413 ∧
    (dispatch cfg routes req).body = quoteCode "PAYLOAD_TOO_LARGE" ∧
    (dispatch cfg routes req).handlerInvoked = false ∧
    (dispatch cfg routes req).consumed ≤ req.chunks.length ∧
    cfg.maxRequestSize < chunkBytes (req.chunks.take (dispatch cfg routes req).consumed) ∧
    chunkBytes (req.chunks.take ((dispatch cfg routes req).consumed - 1)) ≤ cfg.maxRequestSize := by
  obtain ⟨ht, h1, hlen, hgt, hle⟩ := acquireBody_large cfg.maxRequestSize req.chunks hsize
  rcases hres : acquireBody cfg.maxRequestSize req.chunks with ⟨tl, bd, cn⟩
  rw [hres] at ht h1 hlen hgt hle
  simp only at ht h1 hlen hgt hle
  subst ht
  rcases hkind with ⟨f, rfl⟩ | rfl | ⟨g, rfl⟩ <;>
    simp [dispatch, hroute, hopt, hres, hlen, hgt, hle]

/-- C5 witness: the 413 path at a concrete two-chunk request exceeding a
2-byte limit; the second chunk trips the limit and reading stops there. -/
theorem payload_too_large_413_witness :
    List.lookup "/s" [("/s", Route.sse)] = some Route.sse ∧
    ({ maxRequestSize := 2 } : ApiConfig).maxRequestSize < chunkBytes [[1, 2], [3]] ∧
    ((dispatch { maxRequestSize := 2 } [("/s", Route.sse)]
        { method := "GET", url := "/s", chunks := [[1, 2], [3]] }).status = 413 ∧
     (dispatch { maxRequestSize := 2 } [("/s", Route.sse)]
        { method := "GET", url := "/s", chunks := [[1, 2], [3]] }).body = quoteCode "PAYLOAD_TOO_LARGE" ∧
     (dispatch { maxRequestSize := 2 } [("/s", Route.sse)]
        { method := "GET", url := "/s", chunks := [[1, 2], [3]] }).handlerInvoked = false ∧
     (dispatch { maxRequestSize := 2 } [("/s", Route.sse)]
        { method := "GET", url := "/s", chunks := [[1, 2], [3]] }).consumed = 2) := by
  refine ⟨rfl, by decide, ?_, ?_, ?_, by decide⟩ <;>
  · have h := payload_too_large_413 { maxRequestSize := 2 } [("/s", Route.sse)]
      { method := "GET", url := "/s", chunks := [[1, 2], [3]] } Route.sse
      rfl (Or.inr (Or.inl rfl)) (by decide) (by decide)
    first
      | exact h.1
      | exact h.2.1
      | exact h.2.2.1

/-- C7 counterexample: the two-byte UTF-8 character `é` (0xC3 0xA9) split
across two chunks reaches the handler as two replacement characters, not as
the decode of the two bytes sent — per-chunk decoding is not split-invariant. -/
theorem split_multibyte_cex :
    (dispatch {} [("/echo", Route.rpc echoHandler)]
      { method := "POST", url := "/echo", chunks := [[0xC3], [0xA9]] }).handlerArg ≠
      some (utf8Decode [0xC3, 0xA9]) ∧
    (dispatch {} [("/echo", Route.rpc echoHandler)]
      { method := "POST", url := "/echo", chunks := [[0xC3], [0xA9]] }).handlerArg =
      some (String.singleton replChar ++ String.singleton replChar) ∧
    utf8Decode [0xC3, 0xA9] = String.singleton (Char.ofNat 0xE9) := by
  refine ⟨by decide, by decide, by decide⟩

/-- C7 (amended): for every RPC request with body within `maxRequestSize`,
the handler observes on `ctx.req.body` the concatenation of the per-chunk
UTF-8 decodes of the bytes sent; when every byte is ASCII this equals the N
bytes sent decoded as UTF-8, regardless of how the transport splits the body
into chunks. -/
theorem rpc_body_observed (cfg : ApiConfig) (routes : List (String × Route))
    (req : Request) (f : String → Except Thrown (Option Json))
    (hroute : List.lookup req.url routes = some (Route.rpc f))
    (hm : req.method = "POST")
    (hsize : chunkBytes req.chunks ≤ cfg.maxRequestSize) :
    (dispatch cfg routes req).handlerArg = some (decodeAll req.chunks) ∧
    (dispatch cfg routes req).handlerInvoked = true ∧
    ((∀ b ∈ req.chunks.flatten, b < 0x80) →
      (dispatch cfg routes req).handlerArg = some (utf8Decode req.chunks.flatten)) := by
  have hopt : req.method ≠ "OPTIONS" := by simp [hm]
  have hasc : (∀ (b : Nat), ∀ x ∈ req.chunks, b ∈ x → b < 0x80) →
      decodeAll req.chunks = utf8Decode req.chunks.flatten := by
    intro h
    refine decodeAll_ascii req.chunks ?_
    intro b hb
    rw [List.mem_flatten] at hb
    obtain ⟨x, hx, hbx⟩ := hb
    exact h b x hx hbx
  rcases hres : f (decodeAll req.chunks) with e | o
  · simp [dispatch, hroute, hopt, hm, acquireBody_ok _ _ hsize, hres, errorResult]
    exact fun h => hasc h
  · rcases o with _ | j <;>
      · simp [dispatch, hroute, hopt, hm, acquireBody_ok _ _ hsize, hres]
        exact fun h => hasc h

/-- C7 witness: a concrete ASCII body split in two chunks is observed
exactly, decoding to `"hi"`. -/
theorem rpc_body_observed_witness :
    List.lookup "/echo" [("/echo", Route.rpc echoHandler)] = some (Route.rpc echoHandler) ∧
    chunkBytes [[104], [105]] ≤ ({} : ApiConfig).maxRequestSize ∧
    ((dispatch {} [("/echo", Route.rpc echoHandler)]
        { method := "POST", url := "/echo", chunks := [[104], [105]] }).handlerArg =
      some (decodeAll [[104], [105]]) ∧
     (dispatch {} [("/echo", Route.rpc echoHandler)]
        { method := "POST", url := "/echo", chunks := [[104], [105]] }).handlerInvoked = true ∧
     (dispatch {} [("/echo", Route.rpc echoHandler)]
        { method := "POST", url := "/echo", chunks := [[104], [105]] }).handlerArg =
      some (utf8Decode [104, 105]) ∧
     decodeAll [[104], [105]] = "hi") := by
  have h := rpc_body_observed {} [("/echo", Route.rpc echoHandler)]
    { method := "POST", url := "/echo", chunks := [[104], [105]] } echoHandler
    rfl rfl (by decide)
  exact ⟨rfl, by decide, h.1, h.2.1, h.2.2 (by decide), by decide⟩

/-- C8: for every RPC handler invocation completing normally, the `undefined`
sentinel yields status 200 with an empty body and no content-type header, and
a defined result is answered with exactly its JSON serialization and
`content-type: application/json`. -/
theorem rpc_result_encoding (cfg : ApiConfig) (routes : List (String × Route))
    (req : Request) (f : String → Except Thrown (Option Json))
    (hroute : List.lookup req.url routes = some (Route.rpc f))
    (hm : req.method = "POST")
    (hsize : chunkBytes req.chunks ≤ cfg.maxRequestSize) :
    (f (decodeAll req.chunks) = Except.ok none →
      (dispatch cfg routes req).status = 200 ∧
      (dispatch cfg routes req).body = "" ∧
      (dispatch cfg routes req).contentType = none) ∧
    (∀ j, f (decodeAll req.chunks) = Except.ok (some j) →
      (dispatch cfg routes req).status = 200 ∧
      (dispatch cfg routes req).body = jsonStringify j ∧
      (dispatch cfg routes req).contentType = some "application/json") := by
  have hopt : req.method ≠ "OPTIONS" := by simp [hm]
  constructor
  · intro hres
    simp [dispatch, hroute, hopt, hm, acquireBody_ok _ _ hsize, hres]
  · intro j hres
    simp [dispatch, hroute, hopt, hm, acquireBody_ok _ _ hsize, hres]

/-- C8 witness: concrete handlers returning the sentinel and `\x7ba: 1\x7d`;
the latter's body is exactly the serialization of that object. -/
theorem rpc_result_encoding_witness :
    noneHandler (decodeAll []) = Except.ok none ∧
    objHandler (decodeAll []) = Except.ok (some (Json.obj [("a", Json.num 1)])) ∧
    ((dispatch {} [("/n", Route.rpc noneHandler)]
        { method := "POST", url := "/n", chunks := [] }).status = 200 ∧
     (dispatch {} [("/n", Route.rpc noneHandler)]
        { method := "POST", url := "/n", chunks := [] }).body = "" ∧
     (dispatch {} [("/n", Route.rpc noneHandler)]
        { method := "POST", url := "/n", chunks := [] }).contentType = none) ∧
    ((dispatch {} [("/o", Route.rpc objHandler)]
        { method := "POST", url := "/o", chunks := [] }).status = 200 ∧
     (dispatch {} [("/o", Route.rpc objHandler)]
        { method := "POST", url := "/o", chunks := [] }).body =
       jsonStringify (Json.obj [("a", Json.num 1)]) ∧
     (dispatch {} [("/o", Route.rpc objHandler)]
        { method := "POST", url := "/o", chunks := [] }).contentType =
       some "application/json") ∧
    jsonStringify (Json.obj [("a", Json.num 1)]) = "\x7b\"a\":1\x7d" := by
  refine ⟨rfl, rfl, ?_, ?_, ?_⟩
  · exact (rpc_result_encoding {} [("/n", Route.rpc noneHandler)]
      { method := "POST", url := "/n", chunks := [] } noneHandler rfl rfl (by decide)).1 rfl
  · exact (rpc_result_encoding {} [("/o", Route.rpc objHandler)]
      { method := "POST", url := "/o", chunks := [] } objHandler rfl rfl (by decide)).2
      (Json.obj [("a", Json.num 1)]) rfl
  · simp [jsonStringify, jsonStringifyFields, jsonQuote, jsonEscapeChar]
    decide

/-- C4: every failure thrown during a dispatch — by an RPC, Blob or Upload
handler — is mapped totally to a wire response by `handleError`: a typed
`HttpError` keeps its fixed `statusCode` with body the quoted code, a
`ValidationError` maps to 400 with its own quoted code (not rewritten to
`BAD_REQUEST`), and any other thrown value maps to 500 with body
`"INTERNAL_ERROR"` — in every case the body is exactly the quoted code
string, never the message. -/
theorem error_mapping_total (cfg : ApiConfig) (routes : List (String × Route))
    (req : Request) (e : Thrown)
    (hthrow :
      (∃ f, List.lookup req.url routes = some (Route.rpc f) ∧ req.method = "POST" ∧
        chunkBytes req.chunks ≤ cfg.maxRequestSize ∧
        f (decodeAll req.chunks) = Except.error e) ∨
      (∃ g, List.lookup req.url routes = some (Route.blob g) ∧ req.method = "GET" ∧
        chunkBytes req.chunks ≤ cfg.maxRequestSize ∧
        g (decodeAll req.chunks) = Except.error e) ∨
      (List.lookup req.url routes = some (Route.upload (Except.error e)) ∧
        req.method = "POST")) :
    (dispatch cfg routes req).status = (handleError e).1 ∧
    (dispatch cfg routes req).body = (handleError e).2 ∧
    (∀ sc c, e = Thrown.httpError sc c →
      (dispatch cfg routes req).status = sc ∧
      (dispatch cfg routes req).body = quoteCode c) ∧
    (∀ c, e = Thrown.validationError c →
      (dispatch cfg routes req).status = 400 ∧
      (dispatch cfg routes req).body = quoteCode c) ∧
    (∀ m, e = Thrown.other m →
      (dispatch cfg routes req).status = 500 ∧
      (dispatch cfg routes req).body = quoteCode "INTERNAL_ERROR") := by
  have hd : (dispatch cfg routes req).status = (handleError e).1 ∧
      (dispatch cfg routes req).body = (handleError e).2 := by
    rcases hthrow with ⟨f, hroute, hm, hsize, herr⟩ | ⟨g, hroute, hm, hsize, herr⟩ |
      ⟨hroute, hm⟩
    · have hopt : req.method ≠ "OPTIONS" := by simp [hm]
      simp [dispatch, hroute, hopt, hm, acquireBody_ok _ _ hsize, herr, errorResult]
    · have hopt : req.method ≠ "OPTIONS" := by simp [hm]
      simp [dispatch, hroute, hopt, hm, acquireBody_ok _ _ hsize, herr, errorResult]
    · have hopt : req.method ≠ "OPTIONS" := by simp [hm]
      simp [dispatch, hroute, hopt, hm, errorResult]
  refine ⟨hd.1, hd.2, ?_, ?_, ?_⟩
  · rintro sc c rfl
    simpa [handleError] using hd
  · rintro c rfl
    simpa [handleError] using hd
  · rintro m rfl
    simpa [handleError] using hd

/-- C4 witness: an RPC handler throwing `ForbiddenError` yields exactly
403/`"FORBIDDEN"`; a Blob handler throwing a `ValidationError` with code
"SCHEMA_MISMATCH" yields 400 with that quoted code; an Upload handler
throwing a plain error with message "boom" yields 500/`"INTERNAL_ERROR"`
with no detail. -/
theorem error_mapping_total_witness :
    throwForbidden (decodeAll []) = Except.error (Thrown.httpError 403 "FORBIDDEN") ∧
    blobThrowValidation (decodeAll []) =
      Except.error (Thrown.validationError "SCHEMA_MISMATCH") ∧
    ((dispatch {} [("/f", Route.rpc throwForbidden)]
        { method := "POST", url := "/f", chunks := [] }).status = 403 ∧
     (dispatch {} [("/f", Route.rpc throwForbidden)]
        { method := "POST", url := "/f", chunks := [] }).body = quoteCode "FORBIDDEN") ∧
    ((dispatch {} [("/v", Route.blob blobThrowValidation)]
        { method := "GET", url := "/v", chunks := [] }).status = 400 ∧
     (dispatch {} [("/v", Route.blob blobThrowValidation)]
        { method := "GET", url := "/v", chunks := [] }).body = quoteCode "SCHEMA_MISMATCH") ∧
    ((dispatch {} [("/u", Route.upload (Except.error (Thrown.other "boom")))]
        { method := "POST", url := "/u", chunks := [] }).status = 500 ∧
     (dispatch {} [("/u", Route.upload (Except.error (Thrown.other "boom")))]
        { method := "POST", url := "/u", chunks := [] }).body = quoteCode "INTERNAL_ERROR") := by
  refine ⟨rfl, rfl, ?_, ?_, ?_⟩
  · exact (error_mapping_total {} [("/f", Route.rpc throwForbidden)]
      { method := "POST", url := "/f", chunks := [] } (Thrown.httpError 403 "FORBIDDEN")
      (Or.inl ⟨throwForbidden, rfl, rfl, by decide, rfl⟩)).2.2.1 403 "FORBIDDEN" rfl
  · exact (error_mapping_total {} [("/v", Route.blob blobThrowValidation)]
      { method := "GET", url := "/v", chunks := [] } (Thrown.validationError "SCHEMA_MISMATCH")
      (Or.inr (Or.inl ⟨blobThrowValidation, rfl, rfl, by decide, rfl⟩))).2.2.2.1
      "SCHEMA_MISMATCH" rfl
  · exact (error_mapping_total {} [("/u", Route.upload (Except.error (Thrown.other "boom")))]
      { method := "POST", url := "/u", chunks := [] } (Thrown.other "boom")
      (Or.inr (Or.inr ⟨rfl, rfl⟩))).2.2.2.2 "boom" rfl

/-- C2 counterexample: the handler's promise resolving triggers nothing — a
session with a registered cleanup is left unchanged (not closed, cleanup not
run) by the handler-return event, contradicting the claim's trigger (b). -/
theorem handler_return_no_cleanup_cex :
    (onCleanup initSession { id := 0, fails := false }).cleanups ≠ [] ∧
    sseStep SseTrigger.handlerReturn (onCleanup initSession { id := 0, fails := false }) =
      onCleanup initSession { id := 0, fails := false } ∧
    (sseStep SseTrigger.handlerReturn (onCleanup initSession { id := 0, fails := false })).runLog = [] ∧
    (sseStep SseTrigger.handlerReturn (onCleanup initSession { id := 0, fails := false })).closed = false := by
  refine ⟨by decide, rfl, by decide, by decide⟩

/-- C2 (amended): session end is triggered only by the underlying connection
reporting closed (in either the request or the response direction); on the
first such trigger every registered cleanup callback runs, in registration
order. The handler returning/completing does not trigger session end. -/
theorem session_end_on_close_only (s : SseSession) (h : s.closed = false) :
    (sseStep SseTrigger.reqClose s).closed = true ∧
    (sseStep SseTrigger.reqClose s).runLog = s.runLog ++ s.cleanups.map Cb.id ∧
    (sseStep SseTrigger.resClose s).closed = true ∧
    (sseStep SseTrigger.resClose s).runLog = s.runLog ++ s.cleanups.map Cb.id ∧
    sseStep SseTrigger.handlerReturn s = s := by
  simp [sseStep, runCleanup, h, drainCleanups_eq]

/-- C2 witness: the close trigger drains the single registered (throwing)
cleanup of a concrete open session; handler return leaves it untouched. -/
theorem session_end_on_close_only_witness :
    ({ closed := false, cleanups := [{ id := 3, fails := true }], writes := [],
        runLog := [] } : SseSession).closed = false ∧
    ((sseStep SseTrigger.reqClose
        { closed := false, cleanups := [{ id := 3, fails := true }], writes := [],
          runLog := [] }).closed = true ∧
     (sseStep SseTrigger.reqClose
        { closed := false, cleanups := [{ id := 3, fails := true }], writes := [],
          runLog := [] }).runLog = [3] ∧
     sseStep SseTrigger.handlerReturn
        { closed := false, cleanups := [{ id := 3, fails := true }], writes := [],
          runLog := [] } =
       { closed := false, cleanups := [{ id := 3, fails := true }], writes := [],
         runLog := [] }) := by
  have h := session_end_on_close_only
    { closed := false, cleanups := [{ id := 3, fails := true }], writes := [], runLog := [] } rfl
  exact ⟨rfl, h.1, h.2.1, h.2.2.2.2⟩

/-- C6: registering two cleanup callbacks and then disconnecting invokes
both, in registration order, exactly once each — whether or not either
callback throws — and every subsequent disconnect or duplicate close trigger
is a no-op that invokes no callback again. -/
theorem sse_cleanup_exactly_once (c0 c1 : Cb) :
    (runCleanup (onCleanup (onCleanup initSession c0) c1)).runLog = [c0.id, c1.id] ∧
    (runCleanup (onCleanup (onCleanup initSession c0) c1)).closed = true ∧
    runCleanup (runCleanup (onCleanup (onCleanup initSession c0) c1)) =
      runCleanup (onCleanup (onCleanup initSession c0) c1) ∧
    sseStep SseTrigger.reqClose (runCleanup (onCleanup (onCleanup initSession c0) c1)) =
      runCleanup (onCleanup (onCleanup initSession c0) c1) ∧
    sseStep SseTrigger.resClose (runCleanup (onCleanup (onCleanup initSession c0) c1)) =
      runCleanup (onCleanup (onCleanup initSession c0) c1) := by
  simp [sseStep, runCleanup, onCleanup, initSession, drainCleanups, invokeCb]

/-- C9: `emit` after the session has closed writes nothing and changes no
state (a silent no-op), while `emit` before close appends exactly the
two-line frame `event: <name>\n` and `data: <json(data)>\n\n`. -/
theorem emit_frames_and_after_close (s : SseSession) (e : String) (d : Json) :
    (s.closed = true → emit s e d = s) ∧
    (s.closed = false →
      (emit s e d).writes =
        s.writes ++ ["event: " ++ e ++ "\n", "data: " ++ jsonStringify d ++ "\n\n"] ∧
      (emit s e d).closed = false ∧
      (emit s e d).cleanups = s.cleanups ∧
      (emit s e d).runLog = s.runLog) := by
  constructor <;> intro h <;> simp [emit, h]

/-- C9 witness: `emit` on a concrete closed session is the identity; on an
open session it writes exactly the two frame lines for `("tick", "x")`. -/
theorem emit_frames_witness :
    ({ closed := true, cleanups := [], writes := [], runLog := [] } : SseSession).closed = true ∧
    emit { closed := true, cleanups := [], writes := [], runLog := [] } "tick" (Json.str "x") =
      { closed := true, cleanups := [], writes := [], runLog := [] } ∧
    ({ closed := false, cleanups := [], writes := [], runLog := [] } : SseSession).closed = false ∧
    (emit { closed := false, cleanups := [], writes := [], runLog := [] } "tick"
        (Json.str "x")).writes = ["event: tick\n", "data: \"x\"\n\n"] := by
  have h1 := (emit_frames_and_after_close
    { closed := true, cleanups := [], writes := [], runLog := [] } "tick" (Json.str "x")).1 rfl
  have h2 := (emit_frames_and_after_close
    { closed := false, cleanups := [], writes := [], runLog := [] } "tick" (Json.str "x")).2 rfl
  refine ⟨rfl, h1, rfl, ?_⟩
  rw [h2.1]
  simp only [jsonStringify]
  decide
